import Mathlib

/-!
Verification of the development server `dev_server.py`.

The file embeds the program shallowly: the pieces written in the repository
itself (the header injection of `end_headers`, the colored logging of
`log_message`, and the process lifecycle of `start_server`) are translated
directly from the source; the static-file request handling the program
inherits from the HTTP library (path resolution, status codes, bodies) is
not part of the repository's own code, so it is modelled from the
specification's description of the resolution outcomes.
-/

namespace DevServer

/-- The compiled-in listen port (`PORT = 8080` in the source). -/
def PORT : Nat := 8080

/-- Checks that `pre` occurs at the start of `l` (character list form of a
string starting-with test). -/
def leadsList (pre l : List Char) : Bool :=
  match pre, l with
  | p :: ps, c :: cs => if p = c then leadsList ps cs else false
  | [], _ => true
  | _, [] => false

/-- Checks that `needle` occurs as a contiguous run somewhere in `hay`:
the meaning of Python's `needle in hay` test on strings. -/
def containsSeq (needle : List Char) : List Char → Bool
  | [] => leadsList needle []
  | b :: bs => leadsList needle (b :: bs) || containsSeq needle bs

/-- Python's substring membership test `needle in hay`, lifted to `String`. -/
def strContains (needle hay : String) : Bool :=
  containsSeq needle.data hay.data

/-- ANSI escape that starts the green ("success") style: `\033[92m`. -/
def ansiGreen : String := "\x1b[92m"

/-- ANSI escape that starts the red ("error") style: `\033[91m`. -/
def ansiRed : String := "\x1b[91m"

/-- ANSI escape that resets styling: `\033[0m`. -/
def ansiReset : String := "\x1b[0m"

/-- `MyHTTPRequestHandler.log_message` (src lines 26-33): `msg` stands for the
already-rendered `format % args`. One line is printed; a line containing
`GET` is wrapped in the green escapes, otherwise a line containing `404` is
wrapped in the red escapes, otherwise the line is printed verbatim. The list
returned is the sequence of lines printed by one call. -/
def log_message (msg : String) : List String :=
  if strContains "GET" msg then [ansiGreen ++ msg ++ ansiReset]
  else if strContains "404" msg then [ansiRed ++ msg ++ ansiReset]
  else [msg]

/-- Value of a hexadecimal digit character, if it is one. -/
def hexVal (c : Char) : Option Nat :=
  if 48 ≤ c.toNat ∧ c.toNat ≤ 57 then some (c.toNat - 48)
  else if 97 ≤ c.toNat ∧ c.toNat ≤ 102 then some (c.toNat - 97 + 10)
  else if 65 ≤ c.toNat ∧ c.toNat ≤ 70 then some (c.toNat - 65 + 10)
  else none

/-- Modelled from the spec: URL-decoding of the request path (§4.2 input —
"request path (URL-decoded)"); the reference program delegates this to the
HTTP library, whose unquoting is not in the repository. A `%` followed by
two hex digits decodes to the character with that code; a `%` not followed
by two hex digits stays literal and scanning resumes at the next character. -/
def urlDecodeL : List Char → List Char
  | [] => []
  | '%' :: a :: b :: rest =>
    match hexVal a, hexVal b with
    | some x, some y => Char.ofNat (16 * x + y) :: urlDecodeL rest
    | _, _ => '%' :: urlDecodeL (a :: b :: rest)
  | c :: rest => c :: urlDecodeL rest

/-- URL-decoding on `String`. -/
def urlDecode (s : String) : String := String.mk (urlDecodeL s.data)

/-- Splits a character list at `/` separators, accumulating the current
segment in reverse in `cur`. -/
def splitSlashGo (cur : List Char) : List Char → List (List Char)
  | [] => [cur.reverse]
  | c :: rest =>
    if c = '/' then cur.reverse :: splitSlashGo [] rest
    else splitSlashGo (c :: cur) rest

/-- Splits a path string into its `/`-separated segments. -/
def splitSlash (s : String) : List String :=
  (splitSlashGo [] s.data).map String.mk

/-- Modelled from the spec: segment normalization for the
canonicalize-then-prefix-check of §4.2/§9 — empty and `.` segments vanish,
`..` pops the last kept segment, and a `..` with nothing left to pop means
the path escapes serve-root, reported as `none`. `stack` holds the kept
segments in reverse. -/
def normSegs (stack : List String) : List String → Option (List String)
  | [] => some stack.reverse
  | seg :: rest =>
    if seg = "" ∨ seg = "." then normSegs stack rest
    else if seg = ".." then
      match stack with
      | [] => none
      | _ :: t => normSegs t rest
    else normSegs (seg :: stack) rest

/-- Modelled from the spec: full path resolution — URL-decode the raw request
path, split into segments, normalize; `none` means the path normalizes to a
location outside serve-root. -/
def resolvePath (raw : String) : Option (List String) :=
  normSegs [] (splitSlash (urlDecode raw))

/-- A filesystem entry under serve-root: a regular file with its byte
contents, or a directory. -/
inductive Entry
  | file (bytes : List Nat)
  | dir
deriving DecidableEq

/-- The tree under serve-root: an association of normalized segment paths to
entries. The server only ever reads it. -/
def FileSystem := List (List String × Entry)

/-- Looks up the entry stored at path `p`. -/
def fsLookup (fs : FileSystem) (p : List String) : Option Entry :=
  match fs with
  | [] => none
  | (q, e) :: rest => if q = p then some e else fsLookup rest p

/-- An HTTP response: status code, header list in send order, body bytes. -/
structure Response where
  status : Nat
  headers : List (String × String)
  body : List Nat
deriving DecidableEq

/-- The first header `end_headers` injects (src line 22). -/
def cacheControlHeader : String × String :=
  ("Cache-Control", "no-cache, no-store, must-revalidate")

/-- The second header `end_headers` injects (src line 23). -/
def corsHeader : String × String :=
  ("Access-Control-Allow-Origin", "*")

/-- `MyHTTPRequestHandler.end_headers` (src lines 20-24): whatever headers a
response has buffered, the override appends the development `Cache-Control`
and `Access-Control-Allow-Origin` headers before the header block is
finalized by the parent class. -/
def end_headers (buffered : List (String × String)) : List (String × String) :=
  buffered ++ [cacheControlHeader, corsHeader]

/-- Builds a response; every response the handler sends finalizes its header
block through `end_headers`. -/
def mkResponse (status : Nat) (hdrs : List (String × String)) (body : List Nat) : Response :=
  { status := status, headers := end_headers hdrs, body := body }

/-- Byte rendering of a string (model-level UTF code points). -/
def strBytes (s : String) : List Nat := s.data.map Char.toNat

/-- Body of an HTTP error response. -/
def errorBody (code : Nat) (msg : String) : List Nat :=
  strBytes (toString code ++ " " ++ msg)

/-- Modelled from the spec: `Content-Type` inferred from the file extension
of the last path segment (§4.2 resolution outcomes). -/
def contentType (segs : List String) : String :=
  match segs.getLast? with
  | none => "application/octet-stream"
  | some name =>
    if strContains ".html" name then "text/html"
    else if strContains ".js" name then "text/javascript"
    else if strContains ".css" name then "text/css"
    else "application/octet-stream"

/-- Names of the immediate children of directory `p` in `fs`. -/
def childNames (fs : FileSystem) (p : List String) : List String :=
  fs.filterMap (fun q =>
    if q.1.take p.length = p ∧ q.1.length = p.length + 1 then q.1.getLast? else none)

/-- Modelled from the spec: the generated directory-listing body (§4.2 —
"else produce a directory listing"): the names of the directory's entries. -/
def listingBody (fs : FileSystem) (p : List String) : List Nat :=
  strBytes (String.intercalate "\n" (childNames fs p))

/-- One HTTP request: method, raw (still encoded) path, and whether the
conditional headers it carries indicate the client's cached copy is
current. -/
structure Request where
  method : String
  path : String
  condCurrent : Bool

/-- Modelled from the spec: the resolution outcomes of §4.2. The path is
URL-decoded and normalized first; a path outside serve-root is rejected with
403 before any filesystem access, for any method. A resolved regular file is
served with 200 and its on-disk bytes (304 with an empty body when the
conditional headers say the cached copy is current; HEAD omits the body). A
directory serves its `index.html` if present, else a generated listing. An
unresolved path is 404. Every branch builds its response through
`mkResponse`, whose headers pass through the source's `end_headers`. -/
def handleRequest (fs : FileSystem) (req : Request) : Response :=
  match resolvePath req.path with
  | none => mkResponse 403 [] (errorBody 403 "Forbidden")
  | some segs =>
    if req.method = "GET" ∨ req.method = "HEAD" then
      match fsLookup fs segs with
      | some (Entry.file bytes) =>
        if req.condCurrent then mkResponse 304 [] []
        else mkResponse 200 [("Content-Type", contentType segs)]
          (if req.method = "HEAD" then [] else bytes)
      | some Entry.dir =>
        match fsLookup fs (segs ++ ["index.html"]) with
        | some (Entry.file bytes) =>
          if req.condCurrent then mkResponse 304 [] []
          else mkResponse 200 [("Content-Type", "text/html")]
            (if req.method = "HEAD" then [] else bytes)
        | _ => mkResponse 200 [("Content-Type", "text/html")] (listingBody fs segs)
      | none => mkResponse 404 [] (errorBody 404 "File not found")
    else mkResponse 501 [] (errorBody 501 "Unsupported method")

/-- The state the server carries across requests: the (read-only) tree under
serve-root and the log lines printed so far. -/
structure ServerState where
  fs : FileSystem
  log : List String

/-- The log line the base handler renders for a completed request, handed to
`log_message` as `format % args`. -/
def requestLine (req : Request) (resp : Response) : String :=
  req.method ++ " " ++ req.path ++ " " ++ toString resp.status

/-- One request-handling step of the serving loop: compute the response from
the current tree, append the styled log line; nothing else in the state
changes. -/
def handleStep (s : ServerState) (req : Request) : Response × ServerState :=
  let resp := handleRequest s.fs req
  (resp, { fs := s.fs, log := s.log ++ log_message (requestLine req resp) })

/-- What a run of `start_server` can hit: a clean bind followed by the serve
loop until the user interrupts, or an `OSError` raised by the bind. -/
inductive RunEvent
  | interrupt
  | bindError (errno : Nat) (msg : String)

/-- Observable outcome of `start_server`: lines printed in order, the process
exit code, whether the browser was launched and at which URL. -/
structure RunResult where
  out : List String
  exitCode : Nat
  browserOpened : Bool
  browserUrl : Option String
deriving DecidableEq

/-- Left-justified padding to width `n`, Python's `f"{s:<49}"` formatting. -/
def padRight (s : String) (n : Nat) : String :=
  s ++ String.mk (List.replicate (n - s.length) ' ')

/-- The 51-character horizontal rule of the banner frame. -/
def boxRule : String := String.mk (List.replicate 51 '═')

/-- An all-blank interior banner line between the side borders. -/
def boxBlank : String := "║" ++ String.mk (List.replicate 51 ' ') ++ "║"

/-- The startup banner printed by `start_server` (src lines 36-54), with the
port and the serve-root directory `d` interpolated. -/
def bannerText (d : String) : String :=
  "\n╔" ++ boxRule ++ "╗\n" ++
  "║     AP Statistics Quiz - Development Server      ║\n" ++
  "╠" ++ boxRule ++ "╣\n" ++
  boxBlank ++ "\n" ++
  "║  Server running at: http://localhost:" ++ toString PORT ++ "/      ║\n" ++
  boxBlank ++ "\n" ++
  "║  Files being served from:                        ║\n" ++
  "║  " ++ padRight d 49 ++ "║\n" ++
  boxBlank ++ "\n" ++
  "║  Press Ctrl+C to stop the server                 ║\n" ++
  boxBlank ++ "\n" ++
  "║  DevTools available in browser console:          ║\n" ++
  "║  - window.DevTools.inspectData()                 ║\n" ++
  "║  - window.DevTools.enableDebugMode()             ║\n" ++
  "║  - window.DevTools.getMemoryUsage()              ║\n" ++
  boxBlank ++ "\n" ++
  "╚" ++ boxRule ++ "╝\n    "

/-- `start_server` (src lines 35-77) over serve-root `d` and process argument
vector `argv` (`argv.head?` is the program name, as in `sys.argv`).
The banner prints first, then the bind is attempted. On a bind `OSError`:
errno 48 gets the port-naming diagnostic, any other errno the raw message;
either way exit code 1 and no browser. On a clean bind: the browser opens at
the index URL unless `len(sys.argv) > 1 and sys.argv[1] == '--no-browser'`,
the serving lines print, and the eventual interrupt prints the shutdown
message and exits 0. -/
def start_server (d : String) (argv : List String) (ev : RunEvent) : RunResult :=
  let noBrowser := argv.get? 1 == some "--no-browser"
  match ev with
  | RunEvent.bindError errno msg =>
    { out := [bannerText d] ++
        (if errno = 48 then
          ["\n❌ Error: Port " ++ toString PORT ++ " is already in use.",
           "Try closing other servers or use a different port.\n"]
        else
          ["\n❌ Error: " ++ msg ++ "\n"]),
      exitCode := 1, browserOpened := false, browserUrl := none }
  | RunEvent.interrupt =>
    { out := [bannerText d] ++
        (if noBrowser then ["Skipping browser auto-open"]
         else ["Browser opened automatically"]) ++
        ["\nServing at http://localhost:" ++ toString PORT ++ "/",
         "Watching for file changes...\n",
         "\n\nServer stopped."],
      exitCode := 0,
      browserOpened := !noBrowser,
      browserUrl :=
        if noBrowser then none
        else some ("http://localhost:" ++ toString PORT ++ "/index.html") }

/-! ## Helper lemmas -/

/-- A list is a lead of itself followed by anything. -/
theorem leadsList_self_append (l t : List Char) : leadsList l (l ++ t) = true := by
  induction l with
  | nil => cases t <;> simp [leadsList]
  | cons a as ih => simp [leadsList, ih]

/-- A contiguous-run search finds the needle when the haystack starts with it. -/
theorem containsSeq_self_append (n t : List Char) : containsSeq n (n ++ t) = true := by
  cases n with
  | nil => cases t <;> simp [containsSeq, leadsList]
  | cons c cs => simp [containsSeq, leadsList, leadsList_self_append]

/-- A contiguous-run search still finds the needle after material is prepended. -/
theorem containsSeq_append_left (n a b : List Char) (h : containsSeq n b = true) :
    containsSeq n (a ++ b) = true := by
  induction a with
  | nil => simpa using h
  | cons x xs ih => simp [containsSeq, ih]

/-- A string occurs as a substring of itself wrapped between any two strings. -/
theorem strContains_sandwich (msg pre post : String) :
    strContains msg (pre ++ msg ++ post) = true := by
  unfold strContains
  simp only [String.data_append, List.append_assoc]
  exact containsSeq_append_left _ _ _ (containsSeq_self_append _ _)

/-- Every response assembled by the handler carries the two development
headers, because its header block passes through `end_headers`. -/
theorem mkResponse_dev_headers (s : Nat) (h : List (String × String)) (b : List Nat) :
    cacheControlHeader ∈ (mkResponse s h b).headers ∧
    corsHeader ∈ (mkResponse s h b).headers := by
  constructor <;> simp [mkResponse, end_headers]

/-! ## Claim theorems -/

/-- Claim C1: a request whose path URL-decodes and normalizes to a location
outside serve-root gets the fixed 403 Forbidden response — a constant that
does not depend on the filesystem (so no file is read) nor on the method. -/
theorem traversal_rejected (fs : FileSystem) (req : Request)
    (h : resolvePath req.path = none) :
    handleRequest fs req = mkResponse 403 [] (errorBody 403 "Forbidden") ∧
    (handleRequest fs req).status = 403 := by
  constructor
  · simp [handleRequest, h]
  · simp [handleRequest, h, mkResponse]

/-- Witness for C1: the encoded traversal path `/%2e%2e/%2e%2e/etc/passwd`
normalizes outside serve-root and draws a 403, for a non-GET method and a
non-empty tree. -/
theorem traversal_rejected_witness :
    resolvePath "/%2e%2e/%2e%2e/etc/passwd" = none ∧
    (handleRequest [(["index.html"], Entry.file [104, 105])]
      { method := "POST", path := "/%2e%2e/%2e%2e/etc/passwd", condCurrent := false }).status = 403 :=
  ⟨by decide,
   (traversal_rejected [(["index.html"], Entry.file [104, 105])]
     { method := "POST", path := "/%2e%2e/%2e%2e/etc/passwd", condCurrent := false }
     (by decide)).2⟩

/-- Claim C2: a GET whose path resolves to an existing regular file inside
serve-root is answered 200 with exactly the file's bytes as body, and 304
when the conditional headers mark the client's copy current. -/
theorem get_file_served (fs : FileSystem) (p : String) (segs : List String) (bytes : List Nat)
    (hres : resolvePath p = some segs)
    (hfile : fsLookup fs segs = some (Entry.file bytes)) :
    (handleRequest fs { method := "GET", path := p, condCurrent := false }).status = 200 ∧
    (handleRequest fs { method := "GET", path := p, condCurrent := false }).body = bytes ∧
    (handleRequest fs { method := "GET", path := p, condCurrent := true }).status = 304 := by
  refine ⟨?_, ?_, ?_⟩ <;> simp [handleRequest, hres, hfile, mkResponse]

/-- Witness for C2: `GET /index.html` against a tree holding `index.html`
returns 200 with the file's bytes, and 304 on a current cached copy. -/
theorem get_file_served_witness :
    resolvePath "/index.html" = some ["index.html"] ∧
    fsLookup [(["index.html"], Entry.file [60, 104, 49, 62])] ["index.html"] =
      some (Entry.file [60, 104, 49, 62]) ∧
    ((handleRequest [(["index.html"], Entry.file [60, 104, 49, 62])]
        { method := "GET", path := "/index.html", condCurrent := false }).status = 200 ∧
     (handleRequest [(["index.html"], Entry.file [60, 104, 49, 62])]
        { method := "GET", path := "/index.html", condCurrent := false }).body = [60, 104, 49, 62] ∧
     (handleRequest [(["index.html"], Entry.file [60, 104, 49, 62])]
        { method := "GET", path := "/index.html", condCurrent := true }).status = 304) :=
  ⟨by decide, by decide,
   get_file_served [(["index.html"], Entry.file [60, 104, 49, 62])] "/index.html"
     ["index.html"] [60, 104, 49, 62] (by decide) (by decide)⟩

/-- Claim C3: every response, on every resolution outcome (file hit,
conditional 304, directory index, directory listing, 403, 404, unsupported
method), carries both development headers injected by `end_headers`. -/
theorem every_response_has_dev_headers (fs : FileSystem) (req : Request) :
    cacheControlHeader ∈ (handleRequest fs req).headers ∧
    corsHeader ∈ (handleRequest fs req).headers := by
  unfold handleRequest
  repeat' split
  all_goals exact mkResponse_dev_headers _ _ _

/-- Claim C4: one call of `log_message` prints exactly one line, styled by a
first-match-wins ordered substring check: a line containing `GET` gets the
success (green) style — even when it also contains `404` — otherwise a line
containing `404` gets the error (red) style, and any other line is printed
unstyled. -/
theorem log_line_first_match_wins (msg : String) :
    (log_message msg).length = 1 ∧
    (strContains "GET" msg = true →
      log_message msg = [ansiGreen ++ msg ++ ansiReset]) ∧
    (strContains "GET" msg = false → strContains "404" msg = true →
      log_message msg = [ansiRed ++ msg ++ ansiReset]) ∧
    (strContains "GET" msg = false → strContains "404" msg = false →
      log_message msg = [msg]) := by
  cases hg : strContains "GET" msg <;> cases h4 : strContains "404" msg <;>
    simp [log_message, hg, h4]

/-- Witness for C4, at the quirk input: a log line for a GET that 404s
contains both substrings and is styled green, never red. -/
theorem log_line_first_match_wins_witness :
    strContains "GET" "GET /missing.html HTTP/1.1 404 -" = true ∧
    strContains "404" "GET /missing.html HTTP/1.1 404 -" = true ∧
    log_message "GET /missing.html HTTP/1.1 404 -" =
      [ansiGreen ++ "GET /missing.html HTTP/1.1 404 -" ++ ansiReset] :=
  ⟨by decide, by decide, (log_line_first_match_wins "GET /missing.html HTTP/1.1 404 -").2.1 (by decide)⟩

/-- Claim C5 counterexample: the flag `--no-browser` in a position other
than the first argument does not suppress the launch — the code only tests
`sys.argv[1]` — so with arguments `--verbose --no-browser` the browser opens
although `--no-browser` is present. -/
theorem no_browser_any_position_refuted :
    "--no-browser" ∈ ["dev_server.py", "--verbose", "--no-browser"] ∧
    (start_server "/srv" ["dev_server.py", "--verbose", "--no-browser"]
      RunEvent.interrupt).browserOpened = true := by
  constructor
  · simp
  · rfl

/-- Claim C5 (amended): the browser launch is suppressed, with the skip
message printed, exactly when the first command-line argument (`sys.argv[1]`)
is the literal `--no-browser`; any other argument vector launches the
browser at `http://localhost:8080/index.html`. -/
theorem no_browser_first_arg_only (d : String) (argv : List String) :
    ((argv.get? 1 == some "--no-browser") = true →
      (start_server d argv RunEvent.interrupt).browserOpened = false ∧
      "Skipping browser auto-open" ∈ (start_server d argv RunEvent.interrupt).out ∧
      (start_server d argv RunEvent.interrupt).browserUrl = none) ∧
    ((argv.get? 1 == some "--no-browser") = false →
      (start_server d argv RunEvent.interrupt).browserOpened = true ∧
      "Browser opened automatically" ∈ (start_server d argv RunEvent.interrupt).out ∧
      (start_server d argv RunEvent.interrupt).browserUrl =
        some ("http://localhost:" ++ toString PORT ++ "/index.html")) := by
  constructor <;> intro h <;>
    simp only [beq_iff_eq, beq_eq_false_iff_ne, ne_eq, List.get?_eq_getElem?] at h <;>
    simp [start_server, h]

/-- Witness for the amended C5: `--no-browser` as first argument suppresses
the launch and prints the skip message. -/
theorem no_browser_first_arg_only_witness :
    ((["dev_server.py", "--no-browser"].get? 1 == some "--no-browser") = true) ∧
    ((start_server "/srv" ["dev_server.py", "--no-browser"] RunEvent.interrupt).browserOpened = false ∧
     "Skipping browser auto-open" ∈
       (start_server "/srv" ["dev_server.py", "--no-browser"] RunEvent.interrupt).out ∧
     (start_server "/srv" ["dev_server.py", "--no-browser"] RunEvent.interrupt).browserUrl = none) :=
  ⟨by decide, (no_browser_first_arg_only "/srv" ["dev_server.py", "--no-browser"]).1 (by decide)⟩

/-- Claim C6, at the failing input: on Linux a port-in-use bind failure
raises errno 98, which misses the hard-coded errno-48 test, so the output is
the banner plus only the raw error — the port-naming remediation diagnostic
is absent — while errno 48 (macOS) does produce it; the exit code is 1
either way. -/
theorem port_in_use_errno_mismatch :
    (start_server "/srv" ["dev_server.py"]
      (RunEvent.bindError 98 "[Errno 98] Address already in use")).out =
      [bannerText "/srv", "\n❌ Error: [Errno 98] Address already in use\n"] ∧
    "Try closing other servers or use a different port.\n" ∉
      (start_server "/srv" ["dev_server.py"]
        (RunEvent.bindError 98 "[Errno 98] Address already in use")).out.tail ∧
    (start_server "/srv" ["dev_server.py"]
      (RunEvent.bindError 48 "[Errno 48] Address already in use")).out.tail =
      ["\n❌ Error: Port " ++ toString PORT ++ " is already in use.",
       "Try closing other servers or use a different port.\n"] ∧
    (start_server "/srv" ["dev_server.py"]
      (RunEvent.bindError 98 "[Errno 98] Address already in use")).exitCode = 1 := by
  refine ⟨rfl, ?_, rfl, rfl⟩
  decide

/-- Claim C7: a user interrupt while serving prints the shutdown message and
exits with code 0, whatever the arguments and serve-root. -/
theorem interrupt_graceful_shutdown (d : String) (argv : List String) :
    (start_server d argv RunEvent.interrupt).exitCode = 0 ∧
    "\n\nServer stopped." ∈ (start_server d argv RunEvent.interrupt).out := by
  constructor
  · rfl
  · cases h : (argv.get? 1 == some "--no-browser") <;> simp [start_server, h]

/-- Claim C8: repeating the same GET with an unchanged tree yields the same
status and byte-identical body — one handling step only appends to the log,
leaving the tree that determines responses untouched. -/
theorem repeat_get_identical (s : ServerState) (p : String) (c : Bool) :
    (handleStep (handleStep s { method := "GET", path := p, condCurrent := c }).2
        { method := "GET", path := p, condCurrent := c }).1.status =
      (handleStep s { method := "GET", path := p, condCurrent := c }).1.status ∧
    (handleStep (handleStep s { method := "GET", path := p, condCurrent := c }).2
        { method := "GET", path := p, condCurrent := c }).1.body =
      (handleStep s { method := "GET", path := p, condCurrent := c }).1.body :=
  ⟨rfl, rfl⟩

set_option maxRecDepth 8000 in
/-- Claim C9: on every run — interrupt or bind failure alike — the first
line printed is the full startup banner, which names the port and the
serve-root; no bind diagnostic can precede it. -/
theorem banner_printed_first (d : String) (argv : List String) (ev : RunEvent) :
    (start_server d argv ev).out.head? = some (bannerText d) ∧
    strContains (toString PORT) (bannerText d) = true ∧
    strContains d (bannerText d) = true := by
  refine ⟨?_, ?_, ?_⟩
  · cases ev <;> rfl
  · unfold strContains bannerText
    simp only [String.data_append, List.append_assoc]
    repeat (first
      | exact containsSeq_self_append _ _
      | apply containsSeq_append_left)
  · unfold strContains bannerText padRight
    simp only [String.data_append, List.append_assoc]
    repeat (first
      | exact containsSeq_self_append _ _
      | apply containsSeq_append_left)

/-- Claim C10: the emitted log line always contains the formatted message
verbatim — the styled branches only wrap the unmodified message between a
color escape and the reset escape, and the plain branch emits it as is. -/
theorem log_line_preserves_message (msg : String) :
    ∃ pre post : String,
      log_message msg = [pre ++ msg ++ post] ∧
      ((pre = ansiGreen ∧ post = ansiReset) ∨
       (pre = ansiRed ∧ post = ansiReset) ∨
       (pre = "" ∧ post = "")) ∧
      strContains msg (pre ++ msg ++ post) = true := by
  cases hg : strContains "GET" msg
  · cases h4 : strContains "404" msg
    · refine ⟨"", "", ?_, Or.inr (Or.inr ⟨rfl, rfl⟩), strContains_sandwich msg "" ""⟩
      simp only [log_message, hg, h4, Bool.false_eq_true, if_false]
      refine congrArg (fun s => [s]) (String.ext ?_).symm
      simp [String.data_append]
    · exact ⟨ansiRed, ansiReset, by simp [log_message, hg, h4],
        Or.inr (Or.inl ⟨rfl, rfl⟩), strContains_sandwich msg ansiRed ansiReset⟩
  · exact ⟨ansiGreen, ansiReset, by simp [log_message, hg],
      Or.inl ⟨rfl, rfl⟩, strContains_sandwich msg ansiGreen ansiReset⟩

end DevServer
